import Mathlib

/-!
# Verification of the Global Energy Transition Explorer data-shaping layer

Shallow embedding of `src/streamlit_app.py`: the workbook loader's column
normalization (`load_sheet`), the wide-to-long reshaper (`melt_time_series`),
the time-series view (`time_series_layout`), the composition view
(`power_mix_layout`), the supplementary markdown loader (`load_markdown`)
and the top-level dispatch (`main`).

Modelling conventions:
* A pandas column label is either an integer year or a string (`ColLabel`).
* A cell is `missing` (None/NaN), a numeric value (`Rat`, standing in for
  the float payload; the claims under verification involve only exact
  decimal arithmetic), or a non-numeric value `text p` carrying `p`, the
  result `pd.to_numeric(..., errors="coerce")` would produce for it
  (`none` when coercion fails).
* A wide table stores the `Country` column separately (`WideRow.country`)
  from the non-`"Country"` columns (`WideTable.cols`), mirroring the fact
  that every sheet has a `Country` column and the code always treats it
  specially.  Row cells are positionally aligned with `cols`; a row
  shorter than `cols` reads as `missing` beyond its end.
* Python's `sorted` on strings is code-point lexicographic order, which is
  `String`'s linear order here; `pandas.unique` keeps first occurrences.
* File-system reads are passed in as values: a file is `Option String`
  (`none` = absent, `some c` = present with content `c`); the workbook is
  a map from sheet name to `Option WideTable`.
-/

/-- A pandas column label after `read_excel`: either an integer (year-like
Excel header or renamed year) or a string. -/
inductive ColLabel where
  | year (n : Int)
  | name (s : String)
deriving DecidableEq, Repr

/-- A cell of a sheet: missing (None/NaN), numeric, or non-numeric text.
For `text p`, `p` is what `pd.to_numeric(errors="coerce")` yields on it
(`none` when the value is not numerically coercible). -/
inductive Cell where
  | missing
  | num (v : Rat)
  | text (parsed : Option Rat)
deriving DecidableEq, Repr

/-- One row of a wide sheet: the `Country` value plus the cells of the
non-`"Country"` columns, positionally aligned with `WideTable.cols`. -/
structure WideRow where
  country : String
  cells : List Cell
deriving DecidableEq, Repr

/-- A wide sheet as produced by `load_sheet`: the non-`"Country"` column
labels in sheet order, and the rows. -/
structure WideTable where
  cols : List ColLabel
  rows : List WideRow
deriving DecidableEq, Repr

/-- One row of the melted long table: `(Country, Year-as-string, Value)`.
`value` is total by construction: the long table cannot hold a missing
`Value`. -/
structure LongRow where
  country : String
  year : String
  value : Rat
deriving DecidableEq, Repr

/-- Python `str()` of a column label (`str(2020) = "2020"`). -/
def labelStr : ColLabel → String
  | .year n => toString n
  | .name s => s

/-- `pd.to_numeric(errors="coerce")` on a single cell, composed with NaN-ness:
`none` means the result is NaN (missing input or failed coercion). -/
def coerceCell : Cell → Option Rat
  | .missing => none
  | .num v => some v
  | .text p => p

/-- Cell lookup in a row by position, reading `missing` past the row's end. -/
def cellAt (r : WideRow) (j : Nat) : Cell :=
  r.cells.getD j .missing

/-- Decimal digit value of a character, by code point (48 = `0`). -/
def digitVal (c : Char) : Option Nat :=
  if 48 ≤ c.toNat ∧ c.toNat ≤ 57 then some (c.toNat - 48) else none

/-- Accumulate a base-10 numeral; fails on any non-digit character. -/
def digitsValGo (acc : Nat) : List Char → Option Nat
  | [] => some acc
  | c :: cs =>
    match digitVal c with
    | some d => digitsValGo (acc * 10 + d) cs
    | none => none

/-- Python `int(s)` on a string: an optional sign followed by one or more
decimal digits.  (Python's `int` also tolerates surrounding whitespace and
digit-group underscores; no sheet label exercises those.) -/
def pyStrToInt (s : String) : Option Int :=
  match s.data with
  | [] => none
  | '-' :: c :: cs => (digitsValGo 0 (c :: cs)).map fun n => -(n : Int)
  | '+' :: c :: cs => (digitsValGo 0 (c :: cs)).map fun n => (n : Int)
  | cs => (digitsValGo 0 cs).map fun n => (n : Int)

/-- `Python int(label)` on a column label, as used by `load_sheet`: integer
labels pass through; string labels parse as a base-10 integer or fail. -/
def pyInt : ColLabel → Option Int
  | .year n => some n
  | .name s => pyStrToInt s

/-- The per-column renaming of `load_sheet` (lines 61-69): the `"Country"`
column is skipped; any other label is renamed to `int(label)` when that
parses, and kept unchanged otherwise. -/
def renameCol (c : ColLabel) : ColLabel :=
  if c = .name "Country" then c
  else match pyInt c with
    | some n => .year n
    | none => c

/-- The unnamed-helper-column filter of `load_sheet` (line 58): keep a
column iff `str(label)` does not start with `"Unnamed"`. -/
def keepCol (c : ColLabel) : Bool :=
  ¬ (labelStr c).startsWith "Unnamed"

/-- The column transform of `load_sheet` on a raw header (which may include
the literal `"Country"` label): drop unnamed helper columns, then rename
year-like labels to integers. -/
def load_sheet_cols (cols : List ColLabel) : List ColLabel :=
  (cols.filter keepCol).map renameCol

/-- `df.melt(id_vars="Country", value_vars=year_cols, ...)`: one output row
per (value column, input row) pair, in column-major order (pandas stacks one
block per value column). -/
def meltRaw (t : WideTable) : List (String × ColLabel × Cell) :=
  t.cols.enum.flatMap fun jc =>
    t.rows.map fun r => (r.country, jc.2, cellAt r jc.1)

/-- `melt_time_series` (lines 73-81): melt, drop rows with a missing value,
stringify the `Year` column, coerce `Value` to numeric, and drop rows whose
coercion failed. -/
def melt_time_series (t : WideTable) : List LongRow :=
  let step1 := (meltRaw t).filter fun x => x.2.2 ≠ Cell.missing
  let step2 := step1.map fun x => (x.1, labelStr x.2.1, x.2.2)
  step2.filterMap fun x => (coerceCell x.2.2).map fun v => ⟨x.1, x.2.1, v⟩

/-- The spec's characterization of melting: exactly one long row per
non-missing, numerically coercible wide cell (in melt order). -/
def meltSpec (t : WideTable) : List LongRow :=
  (meltRaw t).filterMap fun x =>
    (coerceCell x.2.2).map fun v => ⟨x.1, labelStr x.2.1, v⟩

/-- Worker for `uniqueFirst`: keep each value not seen before. -/
def uniqueFirstAux (seen : List String) : List String → List String
  | [] => []
  | a :: as =>
    if a ∈ seen then uniqueFirstAux seen as
    else a :: uniqueFirstAux (a :: seen) as

/-- `pandas.unique`: distinct values in order of first occurrence. -/
def uniqueFirst (l : List String) : List String :=
  uniqueFirstAux [] l

/-- Lexicographic code-point comparison of character lists: the order
Python uses to compare strings. -/
def charListLEB : List Char → List Char → Bool
  | [], _ => true
  | _ :: _, [] => false
  | a :: as, b :: bs =>
    if a.toNat < b.toNat then true
    else if b.toNat < a.toNat then false
    else charListLEB as bs

/-- Python string order: lexicographic by unicode code point. -/
def pyStrLE (a b : String) : Prop :=
  charListLEB a.data b.data = true

instance : DecidableRel pyStrLE := fun a b =>
  inferInstanceAs (Decidable (charListLEB a.data b.data = true))

/-- Python `sorted` on strings: ascending code-point lexicographic order,
via a stable insertion sort. -/
def pySortStr (l : List String) : List String :=
  l.insertionSort pyStrLE

/-- Python `max` over two column labels: integers compare with integers,
strings with strings; a mixed comparison raises `TypeError` (`none`). -/
def labelMax2 : ColLabel → ColLabel → Option ColLabel
  | .year a, .year b => some (.year (max a b))
  | .name a, .name b => some (.name (max a b))
  | _, _ => none

/-- Python `max` over a list of column labels: `none` models both the empty
case and the `TypeError` on incomparable (mixed) labels. -/
def labelMax : List ColLabel → Option ColLabel
  | [] => none
  | c :: cs => cs.foldlM labelMax2 c

/-- Sort key order used by `sort_values(..., ascending=False)` on the
snapshot's value column: numeric values descending, NaN (missing or
non-numeric) last. -/
def cellDescBLE (a b : Cell) : Bool :=
  match coerceCell a, coerceCell b with
  | some x, some y => y ≤ x
  | some _, none => true
  | none, some _ => false
  | none, none => true

/-- `cellDescBLE` as a relation. -/
def cellDescLE (a b : Cell) : Prop :=
  cellDescBLE a b = true

instance : DecidableRel cellDescLE := fun a b =>
  inferInstanceAs (Decidable (cellDescBLE a b = true))

/-- The snapshot sort relation on `(Country, value)` pairs: by cell value
descending. -/
def snapDescLE (p q : String × Cell) : Prop :=
  cellDescLE p.2 q.2

instance : DecidableRel snapDescLE := fun p q =>
  inferInstanceAs (Decidable (cellDescLE p.2 q.2))

/-- Everything `time_series_layout` (lines 84-129) computes that a claim
inspects.  `chart = some (data, xSort)` means the line chart is rendered
over `data` with x-axis category order `xSort`; `chart = none` means the
`"Select at least one country to see the trend."` prompt is shown instead.
`snapshot = some (lbl, rows)` is the latest-year snapshot table (label and
descending-sorted rows); `none` covers both the no-value-columns skip and
the `TypeError` from `max` on incomparable labels. -/
structure TSRender where
  countries : List String
  defaultSelection : List String
  longFiltered : List LongRow
  yearOrder : List String
  chart : Option (List LongRow × List String)
  promptShown : Bool
  snapshot : Option (ColLabel × List (String × Cell))
  expanderRows : List WideRow
deriving DecidableEq, Repr

/-- `time_series_layout` (lines 84-129), parameterized by the multiselect
value `selected`. -/
def time_series_layout (t : WideTable) (selected : List String) : TSRender :=
  let countries := pySortStr (uniqueFirst (t.rows.map (·.country)))
  let defaultSelection :=
    if countries.length > 8 then countries.take 8 else countries
  let long0 := melt_time_series t
  let longFiltered :=
    if selected ≠ [] then long0.filter (fun r => selected.contains r.country)
    else long0
  let yearOrder := pySortStr (uniqueFirst (longFiltered.map (·.year)))
  let chart :=
    if longFiltered ≠ [] then some (longFiltered, yearOrder) else none
  let snapshot :=
    if t.cols ≠ [] then
      (labelMax t.cols).map fun lbl =>
        let j := t.cols.indexOf lbl
        let proj := t.rows.map fun r => (r.country, cellAt r j)
        (lbl, proj.insertionSort snapDescLE)
    else none
  let expanderRows :=
    if selected ≠ [] then t.rows.filter (fun r => selected.contains r.country)
    else t.rows
  { countries, defaultSelection, longFiltered, yearOrder,
    chart, promptShown := longFiltered = [], snapshot, expanderRows }

/-- Round half to even (numpy/pandas `round` semantics) to an integer.
The cells the claims exercise carry exact decimal values, so `Rat`
arithmetic matches the float computation. -/
def roundHalfEven (q : Rat) : Int :=
  let f := Int.floor q
  let r := q - f
  if r < 1/2 then f
  else if 1/2 < r then f + 1
  else if f % 2 = 0 then f else f + 1

/-- `Series.round(2)`: round half to even at two decimal places. -/
def round2dp (q : Rat) : Rat :=
  (roundHalfEven (q * 100) : Rat) / 100

/-- `(share * 100).round(2)` on one cell.  NaN propagates to NaN; a
non-numeric `text` cell is outside the claims' scope (pandas would raise
or produce garbage on an object column) and is left unchanged. -/
def sharePct : Cell → Cell
  | .num v => .num (round2dp (v * 100))
  | c => c

/-- Everything `power_mix_layout` (lines 132-160) computes that a claim
inspects: the sorted country list, the `(Source, Share)` pairs in original
column order (also the bar chart's explicit x-axis sort), and the displayed
`(Source, Share (%))` pairs. -/
structure MixRender where
  countries : List String
  mixRows : List (String × Cell)
  displayRows : List (String × Cell)
deriving DecidableEq, Repr

/-- `power_mix_layout` (lines 132-160), parameterized by the selectbox
value `selected`.  `none` models the `IndexError` from `.iloc[0]` when no
row matches `selected` (unreachable through the UI, whose choices come
from the table). -/
def power_mix_layout (t : WideTable) (selected : String) : Option MixRender :=
  let countries := pySortStr (uniqueFirst (t.rows.map (·.country)))
  (t.rows.find? fun r => r.country = selected).map fun row =>
    let mixRows := t.cols.enum.map fun jc => (labelStr jc.2, cellAt row jc.1)
    { countries, mixRows,
      displayRows := mixRows.map fun p => (p.1, sharePct p.2) }

/-- `load_markdown` (lines 47-51): an absent file (`none`) reads as the
empty string; a present file reads as its content. -/
def load_markdown (file : Option String) : String :=
  match file with
  | none => ""
  | some content => content

/-- The `SHEETS` indicator-label → sheet-name catalog (lines 18-27). -/
def SHEETS : List (String × String) := [
  ("Energy Related Greenhouse Gas Emissions (Mt CO2e)", "Greenhouse Gas Emissions"),
  ("Fossil Fuel Consumption (EJ)", "Fossil Fuel Consumption (EJ)"),
  ("Renewable Energy Consumption (EJ)", "Renewable Energy Consumption"),
  ("Power Sector Decarbonisation (generation mix share)", "Power Sector Decarbonisation"),
  ("Carbon Intensity (tCO2-eq per MJ)", "Carbon Int (tCO2-eq per MJ)"),
  ("Energy Consumption per Capita (GJ per person)", "Energy Consumption per Capita"),
  ("Economy-wide Carbon Intensity (CO2e per $ GDP)", "Economic Energy Intensity"),
  ("Carbon Intensity (CO2e per $ GDP)", "Carbon Intensity (per GDP)")]

/-- File name of the workbook (`DATA_FILE`, line 14; the directory prefix
is the script's runtime location and is abstracted away). -/
def dataFileName : String := "2025 Country Transition Tracker Data.xlsx"

/-- File name of the GHG supplementary markdown (line 196). -/
def ghgMdFile : String := "greenhousegas.md"

/-- File name of the carbon-intensity supplementary markdown (line 204). -/
def ciMdFile : String := "carbonintensity.md"

/-- Outcome of the supplementary-markdown block (lines 194-210). -/
inductive SuppRender where
  | shown (content : String)
  | warning (message : String)
deriving DecidableEq, Repr

/-- The supplementary-markdown block of `main` (lines 194-210): only the
two fixed indicators trigger it; empty content (absent file or empty file)
shows the warning. -/
def supplementary (indicator : String) (mdGhg mdCi : Option String) :
    Option SuppRender :=
  if indicator = "Energy Related Greenhouse Gas Emissions (Mt CO2e)" then
    let c := load_markdown mdGhg
    some (if c ≠ "" then .shown c
          else .warning ("Supplementary markdown not found at " ++ ghgMdFile))
  else if indicator = "Carbon Intensity (tCO2-eq per MJ)" then
    let c := load_markdown mdCi
    some (if c ≠ "" then .shown c
          else .warning ("Supplementary markdown not found at " ++ ciMdFile))
  else none

/-- Which of the two view strategies rendered, with its render record. -/
inductive ViewRender where
  | powerMix (r : Option MixRender)
  | timeSeries (r : TSRender)
deriving DecidableEq, Repr

/-- Outcome of one run of `main` (lines 163-210).  `badIndicator` models
the `KeyError` from `SHEETS[indicator]` (unreachable through the UI);
`sheetError` models the unhandled reader exception for a missing sheet;
`missingDataFile` carries the `st.error` message. -/
inductive MainOutcome where
  | badIndicator
  | missingDataFile (message : String)
  | sheetError (sheetName : String)
  | ok (view : ViewRender) (supp : Option SuppRender)
deriving DecidableEq, Repr

/-- `main` (lines 163-210; named `main_render` here since Lean reserves
`main` for the program entry point), parameterized by the file system and the
widget states: `dataFileExists` is `DATA_FILE.exists()`, `workbook` maps a
sheet name to its wide table (`none` = sheet absent), `indicator` is the
sidebar selectbox value, `selectedCountries` / `selectedCountry` are the
country widgets' values, and `mdGhg` / `mdCi` are the two markdown files. -/
def main_render (dataFileExists : Bool) (workbook : String → Option WideTable)
    (indicator : String) (selectedCountries : List String)
    (selectedCountry : String) (mdGhg mdCi : Option String) : MainOutcome :=
  match List.lookup indicator SHEETS with
  | none => .badIndicator
  | some sheet_name =>
    if ¬ dataFileExists then
      .missingDataFile ("Data file not found at " ++ dataFileName)
    else
      match workbook sheet_name with
      | none => .sheetError sheet_name
      | some df =>
        let view :=
          if sheet_name = "Power Sector Decarbonisation" then
            ViewRender.powerMix (power_mix_layout df selectedCountry)
          else
            ViewRender.timeSeries (time_series_layout df selectedCountries)
        .ok view (supplementary indicator mdGhg mdCi)

/-- Ascending numeric order on year strings (the order the spec asserts for
the x-axis categories), reading each string as its integer value. -/
def yearNumLE (a b : String) : Prop :=
  (pyStrToInt a).getD 0 ≤ (pyStrToInt b).getD 0

instance : DecidableRel yearNumLE := fun a b =>
  inferInstanceAs (Decidable ((pyStrToInt a).getD 0 ≤ (pyStrToInt b).getD 0))

/-- State-passing reading of `melt_time_series`'s body: every pandas call
it uses (`DataFrame.melt`, `dropna`, `filterMap`-style coercion) returns a
fresh frame, and the two in-place column assignments (lines 79-80) target
the fresh `long_df`, never the argument `df`; the second component is the
caller's frame when the function returns. -/
def melt_time_series_st (df : WideTable) : List LongRow × WideTable :=
  let long0 := meltRaw df
  let long1 := long0.filter fun x => x.2.2 ≠ Cell.missing
  let long2 := long1.map fun x => (x.1, labelStr x.2.1, x.2.2)
  let long3 := long2.filterMap fun x =>
    (coerceCell x.2.2).map fun v => (⟨x.1, x.2.1, v⟩ : LongRow)
  (long3, df)

/-- Two successive melts of the same (cached) wide table, threading the
frame state: the spec's round-trip idempotence experiment. -/
def melt_twice_st (df : WideTable) :
    List LongRow × List LongRow × WideTable :=
  let r1 := melt_time_series_st df
  let r2 := melt_time_series_st r1.2
  (r1.1, r2.1, r2.2)

/-- Example: the spec's melt test row `("USA", 2020: 10, 2021: None)`. -/
def tUSA : WideTable :=
  ⟨[.year 2020, .year 2021], [⟨"USA", [.num 10, .missing]⟩]⟩

/-- Example: one country with year columns 9 and 10 (year strings of
unequal digit length). -/
def t910 : WideTable :=
  ⟨[.year 9, .year 10], [⟨"A", [.num 1, .num 2]⟩]⟩

/-- Example: the spec's snapshot test rows `("A", 2020: 5), ("B", 2020: 9)`. -/
def tAB : WideTable :=
  ⟨[.year 2020], [⟨"A", [.num 5]⟩, ⟨"B", [.num 9]⟩]⟩

/-- Example: the spec's composition test row
`Coal=0.4, Gas=0.35, Renewables=0.25`. -/
def tMix : WideTable :=
  ⟨[.name "Coal", .name "Gas", .name "Renewables"],
   [⟨"DE", [.num 0.4, .num 0.35, .num 0.25]⟩]⟩

/-- Example: a sheet with ten countries. -/
def t10 : WideTable :=
  ⟨[.year 2020],
   ["C0","C1","C2","C3","C4","C5","C6","C7","C8","C9"].map fun s =>
     ⟨s, [.num 1]⟩⟩

/-- Example: a sheet with five countries. -/
def t5 : WideTable :=
  ⟨[.year 2020], ["C0","C1","C2","C3","C4"].map fun s => ⟨s, [.num 1]⟩⟩

/-- Example: a workbook holding `tAB` under both sheet names the
supplementary-markdown indicators resolve to. -/
def exampleWorkbook : String → Option WideTable := fun s =>
  if s = "Greenhouse Gas Emissions" then some tAB
  else if s = "Carbon Int (tCO2-eq per MJ)" then some tAB
  else none

/-! ## Helper lemmas -/

theorem charListLEB_total (as bs : List Char) :
    charListLEB as bs = true ∨ charListLEB bs as = true := by
  induction as generalizing bs with
  | nil => left; rfl
  | cons a as ih =>
    cases bs with
    | nil => right; rfl
    | cons b bs =>
      unfold charListLEB
      rcases Nat.lt_trichotomy a.toNat b.toNat with h | h | h
      · left; simp [h]
      · have h2 : ¬ a.toNat < b.toNat := by omega
        have h3 : ¬ b.toNat < a.toNat := by omega
        simp only [h2, h3, if_false]
        exact ih bs
      · right; simp [h]

theorem charListLEB_trans : ∀ as bs cs : List Char,
    charListLEB as bs = true → charListLEB bs cs = true →
    charListLEB as cs = true := by
  intro as
  induction as with
  | nil => intro bs cs h1 h2; rfl
  | cons a as ih =>
    intro bs cs h1 h2
    cases bs with
    | nil => simp [charListLEB] at h1
    | cons b bs =>
      cases cs with
      | nil => simp [charListLEB] at h2
      | cons c cs =>
        unfold charListLEB at h1 h2 ⊢
        rcases Nat.lt_trichotomy a.toNat b.toNat with hab | hab | hab <;>
          rcases Nat.lt_trichotomy b.toNat c.toNat with hbc | hbc | hbc
        · simp [show a.toNat < c.toNat by omega]
        · simp [show a.toNat < c.toNat by omega]
        · simp [show ¬ b.toNat < c.toNat by omega, hbc] at h2
        · simp [show a.toNat < c.toNat by omega]
        · simp only [show ¬ a.toNat < b.toNat by omega,
            show ¬ b.toNat < a.toNat by omega, if_false] at h1
          simp only [show ¬ b.toNat < c.toNat by omega,
            show ¬ c.toNat < b.toNat by omega, if_false] at h2
          simp only [show ¬ a.toNat < c.toNat by omega,
            show ¬ c.toNat < a.toNat by omega, if_false]
          exact ih bs cs h1 h2
        · simp [show ¬ b.toNat < c.toNat by omega, hbc] at h2
        · simp [show ¬ a.toNat < b.toNat by omega, hab] at h1
        · simp [show ¬ a.toNat < b.toNat by omega, hab] at h1
        · simp [show ¬ a.toNat < b.toNat by omega, hab] at h1

instance : IsTotal String pyStrLE :=
  ⟨fun a b => charListLEB_total a.data b.data⟩

instance : IsTrans String pyStrLE :=
  ⟨fun a b c => charListLEB_trans a.data b.data c.data⟩

instance : IsTotal (String × Cell) snapDescLE :=
  ⟨by
    intro a b
    unfold snapDescLE cellDescLE cellDescBLE
    cases ha : coerceCell a.2 <;> cases hb : coerceCell b.2 <;> simp_all
    exact le_total _ _⟩

instance : IsTrans (String × Cell) snapDescLE :=
  ⟨by
    intro a b c hab hbc
    unfold snapDescLE cellDescLE cellDescBLE at hab hbc ⊢
    cases ha : coerceCell a.2 <;> cases hb : coerceCell b.2 <;>
      cases hc : coerceCell c.2 <;> simp_all
    exact le_trans hbc hab⟩

theorem melt_eq_meltSpec (t : WideTable) : melt_time_series t = meltSpec t := by
  unfold melt_time_series meltSpec
  induction meltRaw t with
  | nil => rfl
  | cons x xs ih =>
    obtain ⟨c, lbl, cell⟩ := x
    cases cell <;>
      simp_all [List.filter_cons, List.filterMap_cons, coerceCell]

theorem mem_uniqueFirstAux (seen l : List String) (a : String) :
    a ∈ uniqueFirstAux seen l ↔ a ∈ l ∧ a ∉ seen := by
  induction l generalizing seen with
  | nil => simp [uniqueFirstAux]
  | cons x xs ih =>
    unfold uniqueFirstAux
    by_cases hx : x ∈ seen
    · rw [if_pos hx, ih]
      constructor
      · rintro ⟨h1, h2⟩
        exact ⟨List.mem_cons_of_mem _ h1, h2⟩
      · rintro ⟨h1, h2⟩
        rcases List.mem_cons.mp h1 with rfl | h1
        · exact absurd hx h2
        · exact ⟨h1, h2⟩
    · rw [if_neg hx]
      simp only [List.mem_cons, ih]
      constructor
      · rintro (rfl | ⟨h1, h2⟩)
        · exact ⟨Or.inl rfl, hx⟩
        · exact ⟨Or.inr h1, fun hs => h2 (Or.inr hs)⟩
      · rintro ⟨h1 | h1, h2⟩
        · exact Or.inl h1
        · by_cases hax : a = x
          · exact Or.inl hax
          · exact Or.inr ⟨h1, fun hs => hs.elim hax h2⟩

theorem mem_uniqueFirst (l : List String) (a : String) :
    a ∈ uniqueFirst l ↔ a ∈ l := by
  unfold uniqueFirst
  rw [mem_uniqueFirstAux]
  simp

theorem nodup_uniqueFirstAux (seen l : List String) :
    (uniqueFirstAux seen l).Nodup := by
  induction l generalizing seen with
  | nil => simp [uniqueFirstAux]
  | cons x xs ih =>
    unfold uniqueFirstAux
    by_cases hx : x ∈ seen
    · rw [if_pos hx]
      exact ih seen
    · rw [if_neg hx]
      refine List.nodup_cons.mpr ⟨fun hmem => ?_, ih _⟩
      exact ((mem_uniqueFirstAux _ _ _).mp hmem).2 (List.mem_cons_self _ _)

theorem nodup_uniqueFirst (l : List String) : (uniqueFirst l).Nodup :=
  nodup_uniqueFirstAux [] l

theorem sorted_pySortStr (l : List String) :
    List.Sorted pyStrLE (pySortStr l) :=
  List.sorted_insertionSort _ l

theorem perm_pySortStr (l : List String) : List.Perm (pySortStr l) l :=
  List.perm_insertionSort _ l

theorem mem_pySortStr (l : List String) (a : String) :
    a ∈ pySortStr l ↔ a ∈ l :=
  (perm_pySortStr l).mem_iff

theorem nodup_pySortStr (l : List String) (h : l.Nodup) :
    (pySortStr l).Nodup :=
  ((perm_pySortStr l).nodup_iff).mpr h

theorem ts_countries (t : WideTable) (sel : List String) :
    (time_series_layout t sel).countries =
      pySortStr (uniqueFirst (t.rows.map (·.country))) := rfl

theorem ts_defaultSelection (t : WideTable) (sel : List String) :
    (time_series_layout t sel).defaultSelection =
      if 8 < (time_series_layout t sel).countries.length then
        (time_series_layout t sel).countries.take 8
      else (time_series_layout t sel).countries := rfl

theorem ts_longFiltered (t : WideTable) (sel : List String) :
    (time_series_layout t sel).longFiltered =
      if sel ≠ [] then
        (melt_time_series t).filter fun r => sel.contains r.country
      else melt_time_series t := rfl

theorem ts_yearOrder (t : WideTable) (sel : List String) :
    (time_series_layout t sel).yearOrder =
      pySortStr (uniqueFirst
        ((time_series_layout t sel).longFiltered.map (·.year))) := rfl

theorem ts_chart (t : WideTable) (sel : List String) :
    (time_series_layout t sel).chart =
      if (time_series_layout t sel).longFiltered ≠ [] then
        some ((time_series_layout t sel).longFiltered,
              (time_series_layout t sel).yearOrder)
      else none := rfl

theorem ts_promptShown (t : WideTable) (sel : List String) :
    (time_series_layout t sel).promptShown = true ↔
      (time_series_layout t sel).longFiltered = [] := by
  have h : (time_series_layout t sel).promptShown =
      decide ((time_series_layout t sel).longFiltered = []) := rfl
  rw [h, decide_eq_true_eq]

theorem ts_snapshot (t : WideTable) (sel : List String) :
    (time_series_layout t sel).snapshot =
      if t.cols ≠ [] then
        (labelMax t.cols).map fun lbl =>
          (lbl, (t.rows.map fun r =>
            (r.country, cellAt r (t.cols.indexOf lbl))).insertionSort
              snapDescLE)
      else none := rfl

theorem foldlM_labelMax2_year (ys : List Int) (a : Int) :
    List.foldlM labelMax2 (ColLabel.year a) (ys.map ColLabel.year) =
      some (ColLabel.year (ys.foldl max a)) := by
  induction ys generalizing a with
  | nil => rfl
  | cons y ys ih =>
    simp only [List.map_cons, List.foldlM_cons, labelMax2, Option.bind_eq_bind,
      Option.some_bind, List.foldl_cons]
    exact ih (max a y)

theorem labelMax_years (y : Int) (ys : List Int) :
    labelMax ((y :: ys).map ColLabel.year) =
      some (ColLabel.year (ys.foldl max y)) := by
  simp only [List.map_cons, labelMax]
  exact foldlM_labelMax2_year ys y

theorem foldl_max_mem (ys : List Int) (a : Int) :
    ys.foldl max a = a ∨ ys.foldl max a ∈ ys := by
  induction ys generalizing a with
  | nil => left; rfl
  | cons x xs ih =>
    rw [List.foldl_cons]
    rcases ih (max a x) with h | h
    · rw [h]
      rcases max_choice a x with h2 | h2
      · left; exact h2
      · right; rw [h2]; exact List.mem_cons_self x xs
    · right; exact List.mem_cons_of_mem x h

theorem le_foldl_max (ys : List Int) (a : Int) :
    a ≤ ys.foldl max a ∧ ∀ n ∈ ys, n ≤ ys.foldl max a := by
  induction ys generalizing a with
  | nil => exact ⟨le_refl a, by simp⟩
  | cons x xs ih =>
    rw [List.foldl_cons]
    refine ⟨le_trans (le_max_left a x) (ih (max a x)).1, ?_⟩
    intro n hn
    rcases List.mem_cons.mp hn with h | h
    · rw [h]; exact le_trans (le_max_right a x) (ih (max a x)).1
    · exact (ih (max a x)).2 n h

/-! ## Claim theorems -/

/-- C3: for every wide table, melting produces exactly one long-table row
(Country, Year-as-string, Value) per wide cell that is non-missing and
numerically coercible (`meltSpec`: missing cells and coercion failures are
the dropped ones, and `LongRow.value` is total so no long row has a missing
Value); in particular the wide row `("USA", 2020: 10, 2021: None)` melts to
exactly the single row `("USA", "2020", 10.0)`. -/
theorem melt_exactly_coercible_cells :
    (∀ t : WideTable, melt_time_series t = meltSpec t) ∧
      melt_time_series tUSA =
        [{ country := "USA", year := "2020", value := 10 }] :=
  ⟨melt_eq_meltSpec, rfl⟩

/-- C9: melting is a pure, deterministic derivation of the wide table:
running it twice in sequence through the state-passing embedding yields
identical long tables, the input frame is unchanged afterwards, and the
state-passing body agrees with the plain function. -/
theorem melt_pure_no_mutation (df : WideTable) :
    (melt_twice_st df).1 = (melt_twice_st df).2.1 ∧
      (melt_twice_st df).2.2 = df ∧
      (melt_time_series_st df).1 = melt_time_series df :=
  ⟨rfl, rfl, rfl⟩

/-- C4: in the loaded sheet's header, every non-`"Country"` label that
parses as an integer is renamed to that integer, every other non-`"Country"`
label is unchanged, the `"Country"` column is never renamed, and
`load_sheet` applies exactly this renaming to every kept column. -/
theorem load_sheet_renames_year_labels :
    (∀ s n, s ≠ "Country" → pyInt (.name s) = some n →
      renameCol (.name s) = .year n) ∧
      (∀ s, s ≠ "Country" → pyInt (.name s) = none →
        renameCol (.name s) = .name s) ∧
      (∀ n : Int, renameCol (.year n) = .year n) ∧
      renameCol (.name "Country") = .name "Country" ∧
      ∀ cols, load_sheet_cols cols = (cols.filter keepCol).map renameCol := by
  refine ⟨?_, ?_, ?_, rfl, fun _ => rfl⟩
  · intro s n hs hp
    simp [renameCol, hs, hp]
  · intro s hs hp
    simp [renameCol, hs, hp]
  · intro n
    simp [renameCol, pyInt]

/-- C4 witness: column `"2020"` becomes integer year `2020`; column
`"Coal"` stays the string `"Coal"`. -/
theorem load_sheet_renames_year_labels_witness :
    renameCol (.name "2020") = .year 2020 ∧
      renameCol (.name "Coal") = .name "Coal" :=
  ⟨load_sheet_renames_year_labels.1 "2020" 2020 (by decide) (by decide),
   load_sheet_renames_year_labels.2.1 "Coal" (by decide) (by decide)⟩

/-- C1 counterexample: on the wide table `tAB` (non-empty data) with an
empty country selection, the prompt is NOT shown and the line chart IS
rendered (over the full, unfiltered melted table): `if selected:` skips the
filter when the selection is empty, and the chart branch only checks
whether the long table is empty. -/
theorem chart_rendered_on_empty_selection :
    (time_series_layout tAB []).promptShown = false ∧
      (time_series_layout tAB []).chart =
        some (melt_time_series tAB, ["2020"]) :=
  ⟨rfl, rfl⟩

/-- C1 amended: with an empty selection the long table is left unfiltered,
and the chart area shows the prompt instead of the chart exactly when that
(unfiltered) melted table is empty; with non-empty melted data the chart of
all countries is rendered. -/
theorem empty_selection_unfiltered_chart (t : WideTable) :
    (time_series_layout t []).longFiltered = melt_time_series t ∧
      ((time_series_layout t []).chart = none ↔ melt_time_series t = []) ∧
      ((time_series_layout t []).promptShown = true ↔
        melt_time_series t = []) ∧
      (melt_time_series t ≠ [] →
        (time_series_layout t []).chart =
          some (melt_time_series t, (time_series_layout t []).yearOrder)) := by
  have hl : (time_series_layout t []).longFiltered = melt_time_series t := by
    rw [ts_longFiltered]; simp
  refine ⟨hl, ?_, ?_, ?_⟩
  · rw [ts_chart, hl]
    by_cases h : melt_time_series t = [] <;> simp [h]
  · rw [ts_promptShown, hl]
  · intro h
    rw [ts_chart, hl]
    simp [h]

/-- C1 amended witness: on `tAB` with an empty selection the chart over the
full melted table is rendered. -/
theorem empty_selection_unfiltered_chart_witness :
    (time_series_layout tAB []).chart =
      some (melt_time_series tAB, (time_series_layout tAB []).yearOrder) :=
  (empty_selection_unfiltered_chart tAB).2.2.2 (by decide)

/-- C2 counterexample: on a table with year columns 9 and 10 the x-axis
category order is `["10", "9"]` — lexicographic string order — which is not
ascending numeric year order. -/
theorem yearOrder_not_numeric_sorted :
    (time_series_layout t910 ["A"]).yearOrder = ["10", "9"] ∧
      ¬ List.Sorted yearNumLE (time_series_layout t910 ["A"]).yearOrder := by
  have h : (time_series_layout t910 ["A"]).yearOrder = ["10", "9"] := rfl
  refine ⟨h, ?_⟩
  rw [h]
  decide

/-- C2 amended: the x-axis category order passed to the line chart is the
distinct `Year` strings of the plotted data sorted in ascending
lexicographic (code-point) string order — this coincides with numeric order
for equal-length year strings such as real four-digit years, but not in
general — and it is exactly the `sort` list handed to the chart together
with the plotted data. -/
theorem yearOrder_lex_sorted (t : WideTable) (sel : List String) :
    List.Sorted pyStrLE (time_series_layout t sel).yearOrder ∧
      (time_series_layout t sel).yearOrder.Nodup ∧
      (∀ y, y ∈ (time_series_layout t sel).yearOrder ↔
        y ∈ (time_series_layout t sel).longFiltered.map (·.year)) ∧
      (time_series_layout t sel).chart =
        (if (time_series_layout t sel).longFiltered = [] then none
         else some ((time_series_layout t sel).longFiltered,
                    (time_series_layout t sel).yearOrder)) := by
  refine ⟨?_, ?_, ?_, ?_⟩
  · rw [ts_yearOrder]; exact sorted_pySortStr _
  · rw [ts_yearOrder]; exact nodup_pySortStr _ (nodup_uniqueFirst _)
  · intro y
    rw [ts_yearOrder, mem_pySortStr, mem_uniqueFirst]
  · rw [ts_chart]
    by_cases h : (time_series_layout t sel).longFiltered = [] <;> simp [h]

/-- C6: the country multi-select is populated from the lexicographically
sorted distinct country list, and its default is the first 8 entries when
the list has more than 8, else the whole list. -/
theorem default_selection_first_eight (t : WideTable) (sel : List String) :
    List.Sorted pyStrLE (time_series_layout t sel).countries ∧
      (time_series_layout t sel).countries.Nodup ∧
      (∀ s, s ∈ (time_series_layout t sel).countries ↔
        s ∈ t.rows.map (·.country)) ∧
      (8 < (time_series_layout t sel).countries.length →
        (time_series_layout t sel).defaultSelection =
          (time_series_layout t sel).countries.take 8) ∧
      ((time_series_layout t sel).countries.length ≤ 8 →
        (time_series_layout t sel).defaultSelection =
          (time_series_layout t sel).countries) := by
  refine ⟨?_, ?_, ?_, ?_, ?_⟩
  · rw [ts_countries]; exact sorted_pySortStr _
  · rw [ts_countries]; exact nodup_pySortStr _ (nodup_uniqueFirst _)
  · intro s; rw [ts_countries, mem_pySortStr, mem_uniqueFirst]
  · intro h; rw [ts_defaultSelection, if_pos h]
  · intro h; rw [ts_defaultSelection, if_neg (by omega)]

/-- C6 witness: ten countries default to exactly the first 8 in sorted
order; five countries default to all 5. -/
theorem default_selection_first_eight_witness :
    (time_series_layout t10 []).defaultSelection =
        (time_series_layout t10 []).countries.take 8 ∧
      (time_series_layout t5 []).defaultSelection =
        (time_series_layout t5 []).countries ∧
      (time_series_layout t10 []).defaultSelection =
        ["C0", "C1", "C2", "C3", "C4", "C5", "C6", "C7"] ∧
      (time_series_layout t10 []).countries.length = 10 ∧
      (time_series_layout t5 []).countries.length = 5 :=
  ⟨(default_selection_first_eight t10 []).2.2.2.1 (by decide),
   (default_selection_first_eight t5 []).2.2.2.2 (by decide),
   by decide, by decide, by decide⟩

/-- C5: for a pure time-series table (all non-`"Country"` labels are years,
at least one), the latest-year snapshot is independent of the country
filter, its label is the maximum year among the column labels, and its rows
are the `(Country, value-at-latest-year)` projection of ALL rows, sorted in
descending order of that value. -/
theorem snapshot_latest_year_desc (t : WideTable) (sel sel2 : List String)
    (y : Int) (ys : List Int)
    (hcols : t.cols = (y :: ys).map ColLabel.year) :
    (time_series_layout t sel).snapshot =
        (time_series_layout t sel2).snapshot ∧
      ∃ m rows,
        (time_series_layout t sel).snapshot = some (.year m, rows) ∧
        ColLabel.year m ∈ t.cols ∧
        (∀ n, ColLabel.year n ∈ t.cols → n ≤ m) ∧
        List.Perm rows (t.rows.map fun r =>
          (r.country, cellAt r (t.cols.indexOf (ColLabel.year m)))) ∧
        List.Sorted snapDescLE rows := by
  refine ⟨by rw [ts_snapshot, ts_snapshot], ?_⟩
  have hne : t.cols ≠ [] := by rw [hcols]; simp
  rw [ts_snapshot, if_pos hne, hcols, labelMax_years, Option.map_some']
  refine ⟨ys.foldl max y, _, rfl, ?_, ?_,
    List.perm_insertionSort _ _, List.sorted_insertionSort _ _⟩
  · rcases foldl_max_mem ys y with h | h
    · rw [h]; exact List.mem_map_of_mem _ (List.mem_cons_self _ _)
    · exact List.mem_map_of_mem _ (List.mem_cons_of_mem _ h)
  · intro n hn
    rcases List.mem_map.mp hn with ⟨a, ha, heq⟩
    have han : a = n := by
      cases heq; rfl
    rcases List.mem_cons.mp ha with rfl | ha
    · rw [← han]; exact (le_foldl_max ys a).1
    · rw [← han]; exact (le_foldl_max ys y).2 a ha

/-- C5 witness: on `{("A", 2020: 5), ("B", 2020: 9)}` the snapshot puts B
before A and is the same whatever the multi-select holds. -/
theorem snapshot_latest_year_desc_witness :
    (time_series_layout tAB []).snapshot =
        some (.year 2020, [("B", Cell.num 9), ("A", Cell.num 5)]) ∧
      (time_series_layout tAB []).snapshot =
        (time_series_layout tAB ["A"]).snapshot :=
  ⟨by decide, (snapshot_latest_year_desc tAB [] ["A"] 2020 [] rfl).1⟩

/-- C7: when the workbook file is absent, the render is exactly the error
outcome whose message names the expected workbook file, and neither view
outcome nor a sheet load outcome is produced (the sheet reader is never
reached: `load_sheet` sits after the short-circuit `return`). -/
theorem missing_workbook_short_circuits (workbook : String → Option WideTable)
    (indicator sheet : String)
    (hind : List.lookup indicator SHEETS = some sheet)
    (selAll : List String) (selOne : String) (mdG mdC : Option String) :
    main_render false workbook indicator selAll selOne mdG mdC =
        .missingDataFile ("Data file not found at " ++ dataFileName) ∧
      (∀ v supp,
        main_render false workbook indicator selAll selOne mdG mdC ≠
          .ok v supp) ∧
      (∀ sh,
        main_render false workbook indicator selAll selOne mdG mdC ≠
          .sheetError sh) := by
  have h : main_render false workbook indicator selAll selOne mdG mdC =
      .missingDataFile ("Data file not found at " ++ dataFileName) := by
    unfold main_render
    rw [hind]
    simp
  refine ⟨h, fun v supp hc => ?_, fun sh hc => ?_⟩
  · rw [h] at hc; cases hc
  · rw [h] at hc; cases hc

/-- C7 witness: with the workbook absent and the indicator
`"Fossil Fuel Consumption (EJ)"`, the outcome is the error naming the
workbook file. -/
theorem missing_workbook_short_circuits_witness :
    main_render false (fun _ => none) "Fossil Fuel Consumption (EJ)" [] ""
        none none =
      .missingDataFile ("Data file not found at " ++ dataFileName) :=
  (missing_workbook_short_circuits (fun _ => none)
    "Fossil Fuel Consumption (EJ)" "Fossil Fuel Consumption (EJ)"
    (by decide) [] "" none none).1

/-- C8: for a selected country whose row exists, the composition view's
table has one row per non-`"Country"` column in the sheet's original
column order (position `j` shows column `j`), and the displayed
`"Share (%)"` value of a numeric share `v` is `v * 100` rounded (half to
even) to 2 decimal places. -/
theorem power_mix_share_table (t : WideTable) (sel : String) (row : WideRow)
    (hfind : t.rows.find? (fun r => r.country = sel) = some row) :
    ∃ m, power_mix_layout t sel = some m ∧
      m.mixRows = t.cols.enum.map (fun jc => (labelStr jc.2, cellAt row jc.1)) ∧
      m.displayRows.length = t.cols.length ∧
      (∀ j c, t.cols[j]? = some c →
        m.displayRows[j]? = some (labelStr c, sharePct (cellAt row j))) ∧
      (∀ v : Rat, sharePct (Cell.num v) = Cell.num (round2dp (v * 100))) := by
  unfold power_mix_layout
  rw [hfind, Option.map_some']
  refine ⟨_, rfl, rfl, ?_, ?_, fun v => rfl⟩
  · simp [List.length_map, List.enum_length]
  · intro j c hj
    simp [List.getElem?_map, List.getElem?_enum, hj]

/-- C8 witness: for `Coal=0.4, Gas=0.35, Renewables=0.25` the displayed
table is `40.00, 35.00, 25.00` in the original (sheet) column order. -/
theorem power_mix_share_table_witness :
    (power_mix_layout tMix "DE").map MixRender.displayRows =
        some [("Coal", Cell.num 40), ("Gas", Cell.num 35),
              ("Renewables", Cell.num 25)] ∧
      ∃ m, power_mix_layout tMix "DE" = some m ∧
        m.mixRows = tMix.cols.enum.map
          (fun jc =>
            (labelStr jc.2,
             cellAt ⟨"DE", [.num 0.4, .num 0.35, .num 0.25]⟩ jc.1)) := by
  constructor
  · unfold power_mix_layout tMix
    norm_num [List.find?, sharePct, round2dp, roundHalfEven, cellAt,
      labelStr, List.enum, List.enumFrom]
  · obtain ⟨m, hm, hmix, -, -, -⟩ :=
      power_mix_share_table tMix "DE" ⟨"DE", [.num 0.4, .num 0.35, .num 0.25]⟩
        (by simp [tMix, List.find?])
    exact ⟨m, hm, hmix⟩

/-- C10: an existing-but-empty supplementary markdown file is
indistinguishable from an absent one: `load_markdown` returns `""` for
both, and for each of the two triggering indicators the render then shows
the "Supplementary markdown not found" warning even though the file
exists. -/
theorem empty_markdown_indistinguishable
    (workbook : String → Option WideTable) (tG tC : WideTable)
    (hG : workbook "Greenhouse Gas Emissions" = some tG)
    (hC : workbook "Carbon Int (tCO2-eq per MJ)" = some tC)
    (selAll : List String) (selOne : String) (mdOther : Option String) :
    load_markdown (some "") = load_markdown none ∧
      load_markdown (some "") = "" ∧
      main_render true workbook
          "Energy Related Greenhouse Gas Emissions (Mt CO2e)" selAll selOne
          (some "") mdOther =
        .ok (.timeSeries (time_series_layout tG selAll))
          (some (.warning
            ("Supplementary markdown not found at " ++ ghgMdFile))) ∧
      main_render true workbook "Carbon Intensity (tCO2-eq per MJ)" selAll
          selOne mdOther (some "") =
        .ok (.timeSeries (time_series_layout tC selAll))
          (some (.warning
            ("Supplementary markdown not found at " ++ ciMdFile))) := by
  refine ⟨rfl, rfl, ?_, ?_⟩
  · unfold main_render
    rw [show List.lookup
        "Energy Related Greenhouse Gas Emissions (Mt CO2e)" SHEETS =
        some "Greenhouse Gas Emissions" from by decide]
    simp [hG, supplementary, load_markdown]
  · unfold main_render
    rw [show List.lookup "Carbon Intensity (tCO2-eq per MJ)" SHEETS =
        some "Carbon Int (tCO2-eq per MJ)" from by decide]
    simp [hC, supplementary, load_markdown]

/-- C10 witness: a concrete workbook whose GHG and carbon-intensity sheets
exist, with an empty (but present) supplementary markdown file, renders
the warning. -/
theorem empty_markdown_indistinguishable_witness :
    main_render true exampleWorkbook
        "Energy Related Greenhouse Gas Emissions (Mt CO2e)" [] "" (some "")
        none =
      .ok (.timeSeries (time_series_layout tAB []))
        (some (.warning
          ("Supplementary markdown not found at " ++ ghgMdFile))) :=
  (empty_markdown_indistinguishable exampleWorkbook tAB tAB rfl rfl [] ""
    none).2.2.1
